import Mathlib

/-!
# Attendance state-diff and alerting engine: a shallow embedding

This file embeds the core logic of `src/index.js` of the
Azure-Function-Cyber-Vidya repository: the change classifier (lines
181-188), the attendance metric calculator `calculateAttendanceMessage`
(lines 101-129), and the snapshot differ / orchestrator loop of the
exported timer function (lines 170-199).  Counters are embedded as
integers; the JavaScript floating-point arithmetic on `percentage` and
the action counts is embedded as exact rational arithmetic (the decimal
constants 0.75 and 0.25 and the quotients involved are exact in both
models on the integer ranges of interest).
-/

/-- The (present, total) lecture counters for one course, as read from the
fetched course record (`comp.presentLecture`, `comp.totalLecture`) or from
a snapshot entry. -/
structure CourseCounters where
  present : Int
  total : Int
  deriving DecidableEq, Repr

/-- The transient per-course change status derived by the classifier in the
orchestrator loop (`status` in src/index.js lines 183-188, with `Unchanged`
standing for the guard `old.present !== present || old.total !== total`
being false, i.e. no notification). -/
inductive ChangeStatus where
  | Unchanged
  | Present
  | Absent
  | Unknown
  deriving DecidableEq, Repr

/-- Severity of an alert: `Critical` is the `percentage < 75` branch of
`calculateAttendanceMessage`, `Secure` the other branch. -/
inductive Severity where
  | Critical
  | Secure
  deriving DecidableEq, Repr

/-- The structured alert payload computed by `calculateAttendanceMessage`
(src/index.js lines 101-129): the numeric fields and the severity branch
that the message string is rendered from. -/
structure AlertPayload where
  courseLabel : String
  present : Int
  total : Int
  percentage : Rat
  severity : Severity
  actionCount : Int
  deriving DecidableEq, Repr

/-- `const percentage = total > 0 ? (present / total * 100) : 0;`
(src/index.js line 102). -/
def pct (present total : Int) : Rat :=
  if 0 < total then (present : Rat) / (total : Rat) * 100 else 0

/-- The change classifier of the orchestrator loop, src/index.js lines
181-188: if the counters are unchanged the guard at line 182 fails and no
status is produced (embedded as `Unchanged`); otherwise `status` starts as
`"Unknown"` and is overridden to `"Present"` or `"Absent"` by the two
tests at lines 184 and 186. -/
def classify (old curr : CourseCounters) : ChangeStatus :=
  if old.present ≠ curr.present ∨ old.total ≠ curr.total then
    if curr.total > old.total ∧ curr.present > old.present then
      ChangeStatus.Present
    else if curr.total > old.total ∧ curr.present = old.present then
      ChangeStatus.Absent
    else
      ChangeStatus.Unknown
  else
    ChangeStatus.Unchanged

/-- The metric calculator `calculateAttendanceMessage` (src/index.js lines
101-129), embedded as the structured payload its message string renders:
`percentage` from line 102; if `percentage < 75` (line 117) severity is
Critical with `actionCount = Math.max(0, Math.ceil((0.75*total - present)
/ 0.25))` (lines 118, 121); otherwise severity is Secure with
`actionCount = Math.max(0, Math.floor(present / 0.75 - total))` (lines
123, 126).  The status argument only selects the cosmetic status label
and does not affect any numeric field. -/
def computeAlert (course : String) (present total : Int)
    (status : ChangeStatus) : AlertPayload :=
  if pct present total < 75 then
    { courseLabel := course
      present := present
      total := total
      percentage := pct present total
      severity := Severity.Critical
      actionCount := max 0 ⌈((0.75 : Rat) * (total : Rat) - (present : Rat)) / (0.25 : Rat)⌉ }
  else
    { courseLabel := course
      present := present
      total := total
      percentage := pct present total
      severity := Severity.Secure
      actionCount := max 0 ⌊(present : Rat) / (0.75 : Rat) - (total : Rat)⌋ }

-- The `status` parameter of `computeAlert` is unused in the numeric
-- fields, exactly as in the source where it only picks the status label.

/-- A course record as supplied by the course fetch collaborator: the
fields of `c` read by the loop (`c.courseCode`, `c.courseName`,
`comp.presentLecture`, `comp.totalLecture`). -/
structure Course where
  id : String
  label : String
  present : Int
  total : Int
  deriving DecidableEq, Repr

/-- A snapshot: the JavaScript object keyed by course code, embedded as an
association list looked up by first match. -/
abbrev Snapshot := List (String × CourseCounters)

/-- Lookup `state[code]`: first entry with the given key. -/
def snapLookup (s : Snapshot) (k : String) : Option CourseCounters :=
  (s.find? fun p => p.1 == k).map Prod.snd

/-- `newState[code] = { present, total }` (src/index.js line 179): object
assignment, overwriting any previous value under the key. -/
def snapSet (s : Snapshot) (k : String) (v : CourseCounters) : Snapshot :=
  (k, v) :: s.filter fun p => !(p.1 == k)

/-- `const old = prevState[code] || { present: 0, total: 0 };`
(src/index.js line 181). -/
def oldCounters (prev : Snapshot) (k : String) : CourseCounters :=
  (snapLookup prev k).getD ⟨0, 0⟩

/-- A notification emitted for a changed course: the course record, its
change status and the alert payload the telegram message is rendered
from. -/
abbrev Notification := Course × ChangeStatus × AlertPayload

/-- One iteration of the orchestrator loop (src/index.js lines 173-194):
record the fresh counters in the new state (line 179), classify against
the previous state (lines 181-188), and when the status is not
`Unchanged` append a notification (lines 190-192). -/
def diffStep (prev : Snapshot) (acc : Snapshot × List Notification)
    (c : Course) : Snapshot × List Notification :=
  if classify (oldCounters prev c.id) ⟨c.present, c.total⟩ = ChangeStatus.Unchanged then
    (snapSet acc.1 c.id ⟨c.present, c.total⟩, acc.2)
  else
    (snapSet acc.1 c.id ⟨c.present, c.total⟩,
     acc.2 ++ [(c, classify (oldCounters prev c.id) ⟨c.present, c.total⟩,
       computeAlert c.label c.present c.total
         (classify (oldCounters prev c.id) ⟨c.present, c.total⟩))])

/-- The snapshot differ / orchestrator (src/index.js lines 170-199):
starting from `newState = {}` and no notifications, fold the loop body
over the current course list in order. -/
def diff (prev : Snapshot) (courses : List Course) :
    Snapshot × List Notification :=
  courses.foldl (diffStep prev) ([], [])

/-- The per-course decision of the loop in one step: `none` when the
course is unchanged against the previous snapshot, otherwise the
notification it produces.  Classification is always against `prev`. -/
def notifyOf (prev : Snapshot) (c : Course) : Option Notification :=
  if classify (oldCounters prev c.id) ⟨c.present, c.total⟩ = ChangeStatus.Unchanged then none
  else some (c, classify (oldCounters prev c.id) ⟨c.present, c.total⟩,
    computeAlert c.label c.present c.total
      (classify (oldCounters prev c.id) ⟨c.present, c.total⟩))

example : classify ⟨0, 0⟩ ⟨5, 10⟩ = ChangeStatus.Present := by decide
example : classify ⟨5, 10⟩ ⟨5, 11⟩ = ChangeStatus.Absent := by decide
example : classify ⟨8, 10⟩ ⟨8, 10⟩ = ChangeStatus.Unchanged := by decide
example : classify ⟨5, 10⟩ ⟨4, 10⟩ = ChangeStatus.Unknown := by decide

/-! ## Helper lemmas about the metric calculator -/

/-- The exact value of the Critical-branch ceiling: attending one lecture
moves the 75 percent deficit by a quarter point per quarter lecture, so
the expression is the integer `3 * total - 4 * present`. -/
theorem ceil_quarter (p t : Int) :
    ⌈((0.75 : Rat) * (t : Rat) - (p : Rat)) / (0.25 : Rat)⌉ = 3 * t - 4 * p := by
  rw [show ((0.75 : Rat) * (t : Rat) - (p : Rat)) / (0.25 : Rat)
        = ((3 * t - 4 * p : Int) : Rat) by push_cast; ring_nf]
  exact Int.ceil_intCast _

/-- The Secure-branch floor in terms of an integral floor of
`4 * present / 3`. -/
theorem floor_secure (p t : Int) :
    ⌊(p : Rat) / (0.75 : Rat) - (t : Rat)⌋ = ⌊(4 * (p : Rat)) / 3⌋ - t := by
  rw [show (p : Rat) / (0.75 : Rat) - (t : Rat)
        = (4 * (p : Rat)) / 3 - ((t : Int) : Rat) by ring_nf]
  exact Int.floor_sub_int _ _

/-- The percentage field never depends on the branch taken. -/
theorem computeAlert_percentage (l : String) (p t : Int) (s : ChangeStatus) :
    (computeAlert l p t s).percentage = pct p t := by
  unfold computeAlert
  split <;> rfl

/-- The Critical branch of `calculateAttendanceMessage`. -/
theorem computeAlert_crit (l : String) (p t : Int) (s : ChangeStatus)
    (h : pct p t < 75) :
    (computeAlert l p t s).severity = Severity.Critical ∧
    (computeAlert l p t s).actionCount
      = max 0 ⌈((0.75 : Rat) * (t : Rat) - (p : Rat)) / (0.25 : Rat)⌉ := by
  unfold computeAlert
  rw [if_pos h]
  exact ⟨rfl, rfl⟩

/-- The Secure branch of `calculateAttendanceMessage`. -/
theorem computeAlert_secure (l : String) (p t : Int) (s : ChangeStatus)
    (h : ¬ pct p t < 75) :
    (computeAlert l p t s).severity = Severity.Secure ∧
    (computeAlert l p t s).actionCount
      = max 0 ⌊(p : Rat) / (0.75 : Rat) - (t : Rat)⌋ := by
  unfold computeAlert
  rw [if_neg h]
  exact ⟨rfl, rfl⟩

/-- A percentage below 75 with a positive total means the integer
counters satisfy `4 * present < 3 * total`. -/
theorem pct_lt_iff (p t : Int) (ht : 0 < t)
    (h : (p : Rat) / (t : Rat) * 100 < 75) : 4 * p < 3 * t := by
  rw [div_mul_eq_mul_div, div_lt_iff₀ (by exact_mod_cast ht)] at h
  have hq : (4 : Rat) * p < 3 * t := by linarith
  exact_mod_cast hq

/-- A percentage at or above 75 with a positive total means the integer
counters satisfy `3 * total ≤ 4 * present`. -/
theorem pct_ge_iff (p t : Int) (ht : 0 < t)
    (h : (75 : Rat) ≤ (p : Rat) / (t : Rat) * 100) : 3 * t ≤ 4 * p := by
  rw [div_mul_eq_mul_div, le_div_iff₀ (by exact_mod_cast ht)] at h
  have hq : (3 : Rat) * t ≤ 4 * p := by linarith
  exact_mod_cast hq

/-! ## Helper lemmas about snapshots and the orchestrator fold -/

/-- Filtering out the entries under one key does not change a lookup
under a different key. -/
theorem find?_filter_ne (s : Snapshot) (k id : String) (h : id ≠ k) :
    (s.filter fun p => !(p.1 == k)).find? (fun p => p.1 == id)
      = s.find? (fun p => p.1 == id) := by
  induction s with
  | nil => rfl
  | cons p rest ih =>
    by_cases hpk : p.1 = k
    · have hpk' : (p.1 == k) = true := beq_iff_eq.mpr hpk
      have hpi : (p.1 == id) = false := by
        rw [beq_eq_false_iff_ne, hpk]
        exact fun hq => h hq.symm
      simp [List.filter_cons, List.find?_cons, hpk', hpi, ih]
    · have hpk' : (p.1 == k) = false := beq_eq_false_iff_ne.mpr hpk
      cases hpi : (p.1 == id) <;>
        simp [List.filter_cons, List.find?_cons, hpk', hpi, ih]

/-- Lookup after an object assignment: the assigned key reads the new
value, every other key is unaffected. -/
theorem snapLookup_snapSet (s : Snapshot) (k : String) (v : CourseCounters)
    (id : String) :
    snapLookup (snapSet s k v) id = if id = k then some v else snapLookup s id := by
  unfold snapLookup snapSet
  by_cases h : id = k
  · simp [List.find?, h]
  · have hk : ¬ (k == id) = true := by
      simp [beq_iff_eq]
      exact fun hq => h hq.symm
    simp only [List.find?, hk, if_neg h]
    rw [find?_filter_ne s k id h]

/-- The first component of one loop iteration is always the object
assignment of the fresh counters, whatever the change status. -/
theorem diffStep_fst (prev : Snapshot) (acc : Snapshot × List Notification)
    (c : Course) :
    (diffStep prev acc c).1 = snapSet acc.1 c.id ⟨c.present, c.total⟩ := by
  unfold diffStep
  split <;> rfl

/-- The second component of one loop iteration appends exactly the
notifications `notifyOf` decides on. -/
theorem diffStep_snd (prev : Snapshot) (acc : Snapshot × List Notification)
    (c : Course) :
    (diffStep prev acc c).2 = acc.2 ++ (notifyOf prev c).toList := by
  unfold diffStep notifyOf
  split <;> simp

/-- The notification component of the fold is the accumulated list
followed by the per-course decisions in input order. -/
theorem foldl_snd (prev : Snapshot) (courses : List Course)
    (acc : Snapshot × List Notification) :
    (courses.foldl (diffStep prev) acc).2
      = acc.2 ++ courses.filterMap (notifyOf prev) := by
  induction courses generalizing acc with
  | nil => simp
  | cons c rest ih =>
    rw [List.foldl_cons, ih, List.filterMap_cons]
    cases h : notifyOf prev c with
    | none => simp [diffStep_snd, h]
    | some n => simp [diffStep_snd, h]

/-- The snapshot component of the fold, observed through lookup: the last
occurrence of the key in the processed courses wins, and keys never
written read from the accumulator. -/
theorem foldl_fst_lookup (prev : Snapshot) (courses : List Course)
    (acc : Snapshot × List Notification) (id : String) :
    snapLookup (courses.foldl (diffStep prev) acc).1 id =
      match courses.reverse.find? (fun c => c.id == id) with
      | some c => some ⟨c.present, c.total⟩
      | none => snapLookup acc.1 id := by
  induction courses generalizing acc with
  | nil => rfl
  | cons c rest ih =>
    rw [List.foldl_cons, ih, List.reverse_cons, List.find?_append]
    cases hfind : rest.reverse.find? (fun c => c.id == id) with
    | some c' => rfl
    | none =>
      show snapLookup (diffStep prev acc c).1 id
        = match List.find? (fun c => c.id == id) [c] with
          | some c => some ⟨c.present, c.total⟩
          | none => snapLookup acc.1 id
      rw [diffStep_fst, snapLookup_snapSet]
      by_cases hci : c.id = id
      · have hb : (c.id == id) = true := beq_iff_eq.mpr hci
        simp [List.find?_cons, hb, hci.symm]
      · have hb : (c.id == id) = false := beq_eq_false_iff_ne.mpr hci
        have hic : ¬ id = c.id := fun hq => hci hq.symm
        simp [List.find?_cons, hb, hic]

/-! ## Claims -/

/-- C1: for every pair of course counters, with a course absent from the
previous snapshot defaulting to present 0 / total 0, the classifier is a
total function returning exactly one of the four statuses by the spec's
prioritized case analysis: Unchanged on equal counters, else Present when
both counters strictly grew, else Absent when total grew and present is
equal, else Unknown.  Totality (never throws) holds by construction: the
embedding is a total Lean function on all integer counter pairs. -/
theorem claim_C1_classifier_case_analysis :
    (∀ (s : Snapshot) (k : String), snapLookup s k = none → oldCounters s k = ⟨0, 0⟩) ∧
    (∀ prev curr : CourseCounters,
      classify prev curr =
        if curr.present = prev.present ∧ curr.total = prev.total then
          ChangeStatus.Unchanged
        else if curr.total > prev.total ∧ curr.present > prev.present then
          ChangeStatus.Present
        else if curr.total > prev.total ∧ curr.present = prev.present then
          ChangeStatus.Absent
        else ChangeStatus.Unknown) := by
  constructor
  · intro s k h
    unfold oldCounters
    rw [h]
    rfl
  · intro prev curr
    unfold classify
    split_ifs <;> first | rfl | omega

/-- Witness for C1: on the empty snapshot the lookup misses and the
default counters are zero/zero. -/
theorem claim_C1_witness : oldCounters [] "CS101" = ⟨0, 0⟩ :=
  claim_C1_classifier_case_analysis.1 [] "CS101" rfl

/-- C5: the metric calculator is total over all integer inputs (it is a
total Lean function, so it never throws, malformed counters included);
the percentage field is 0 whenever total is 0 because the division is
guarded; and the action count is never negative thanks to the
`Math.max(0, ...)` clamps on both branches. -/
theorem claim_C5_totality_and_guards :
    (∀ (l : String) (p : Int) (s : ChangeStatus),
      (computeAlert l p 0 s).percentage = 0) ∧
    (∀ (l : String) (p t : Int) (s : ChangeStatus),
      0 ≤ (computeAlert l p t s).actionCount) := by
  constructor
  · intro l p s
    rw [computeAlert_percentage]
    rfl
  · intro l p t s
    unfold computeAlert
    split
    · exact le_max_left 0 _
    · exact le_max_left 0 _

/-- C6: the Critical/Secure decision is strict at the threshold: a
computed percentage of exactly 75 takes the Secure branch, and the
Critical branch is taken only when the percentage is strictly below
75. -/
theorem claim_C6_threshold_strict :
    (∀ (l : String) (p t : Int) (s : ChangeStatus),
      (computeAlert l p t s).percentage = 75 →
        (computeAlert l p t s).severity = Severity.Secure) ∧
    (∀ (l : String) (p t : Int) (s : ChangeStatus),
      (computeAlert l p t s).severity = Severity.Critical →
        (computeAlert l p t s).percentage < 75) := by
  constructor
  · intro l p t s h
    rw [computeAlert_percentage] at h
    exact (computeAlert_secure l p t s (by rw [h]; exact lt_irrefl 75)).1
  · intro l p t s h
    rw [computeAlert_percentage]
    by_cases hc : pct p t < 75
    · exact hc
    · exact absurd ((computeAlert_secure l p t s hc).1 ▸ h) (by simp)

/-- Witness for C6: 3 of 4 lectures is exactly 75 percent and lands in
the Secure branch. -/
theorem claim_C6_witness :
    (computeAlert "CS101" 3 4 ChangeStatus.Present).severity = Severity.Secure := by
  apply claim_C6_threshold_strict.1 "CS101" 3 4 ChangeStatus.Present
  rw [computeAlert_percentage]
  norm_num [pct]

/-- Counterexample to C7 as stated: with the malformed counters
present 5, total 4 (explicitly part of the documented domain per the
spec's error-handling section) the percentage is 125, outside [0,100];
the code clamps only the action count, never the percentage. -/
theorem claim_C7_counterexample :
    ¬ ((computeAlert "X" 5 4 ChangeStatus.Present).percentage ≤ 100) := by
  rw [computeAlert_percentage]
  norm_num [pct]

/-- C7 amended: for well-formed counters, 0 ≤ present ≤ total, the
percentage field of the computed payload lies in [0, 100]. -/
theorem claim_C7_percentage_range (l : String) (p t : Int) (s : ChangeStatus)
    (hp : 0 ≤ p) (hpt : p ≤ t) :
    0 ≤ (computeAlert l p t s).percentage ∧
      (computeAlert l p t s).percentage ≤ 100 := by
  rw [computeAlert_percentage]
  unfold pct
  split
  case isTrue ht =>
    have hpq : (0 : Rat) ≤ (p : Rat) := by exact_mod_cast hp
    have htq : (0 : Rat) < (t : Rat) := by exact_mod_cast ht
    have hptq : (p : Rat) ≤ (t : Rat) := by exact_mod_cast hpt
    constructor
    · positivity
    · rw [div_mul_eq_mul_div, div_le_iff₀ htq]
      linarith
  case isFalse ht => norm_num

/-- Witness for the amended C7: 1 of 2 lectures gives 50 percent, inside
the interval. -/
theorem claim_C7_witness :
    0 ≤ (computeAlert "CS101" 1 2 ChangeStatus.Absent).percentage ∧
      (computeAlert "CS101" 1 2 ChangeStatus.Absent).percentage ≤ 100 :=
  claim_C7_percentage_range "CS101" 1 2 ChangeStatus.Absent (by norm_num) (by norm_num)

/-- C9: the classifier maps equal previous and current counters to
Unchanged, and consequently every notification the differ emits is for a
course whose classification against the previous snapshot is not
Unchanged — a course with unchanged counters produces no alert. -/
theorem claim_C9_unchanged_idempotent :
    (∀ c : CourseCounters, classify c c = ChangeStatus.Unchanged) ∧
    (∀ (prev : Snapshot) (courses : List Course),
      ∀ x ∈ (diff prev courses).2,
        classify (oldCounters prev x.1.id) ⟨x.1.present, x.1.total⟩
          ≠ ChangeStatus.Unchanged) := by
  constructor
  · intro c
    unfold classify
    simp
  · intro prev courses x hx
    rw [diff, foldl_snd] at hx
    simp only [List.nil_append] at hx
    obtain ⟨a, ha, hfa⟩ := List.mem_filterMap.mp hx
    unfold notifyOf at hfa
    by_cases h : classify (oldCounters prev a.id) ⟨a.present, a.total⟩ = ChangeStatus.Unchanged
    · rw [if_pos h] at hfa
      exact absurd hfa (by simp)
    · rw [if_neg h] at hfa
      have hx1 : x.1 = a := by
        rw [← Option.some_inj.mp hfa]
      rw [hx1]
      exact h

/-- Witness for C9: a first-seen course with counters 5 of 10 is
classified Present, not Unchanged, against the empty snapshot. -/
theorem claim_C9_witness :
    classify (oldCounters [] "CS101") ⟨5, 10⟩ ≠ ChangeStatus.Unchanged :=
  claim_C9_unchanged_idempotent.2 [] [⟨"CS101", "Intro", 5, 10⟩]
    (⟨"CS101", "Intro", 5, 10⟩, ChangeStatus.Present,
      computeAlert "Intro" 5 10 ChangeStatus.Present)
    (by exact List.mem_singleton.mpr rfl)

/-- C2: below the 75 percent threshold (total positive) the alert is
Critical with action count `max(0, ceil((0.75*total - present)/0.25))`,
and for well-formed counters this action count is the least non-negative
number of consecutive attended future lectures (each incrementing both
counters) that brings attendance to at least three quarters.  The
concrete instance present 5, total 11 giving 13 is the witness
theorem. -/
theorem claim_C2_critical_action_count (l : String) (s : ChangeStatus)
    (p t : Int) (ht : 0 < t) (h75 : (p : Rat) / (t : Rat) * 100 < 75) :
    (computeAlert l p t s).severity = Severity.Critical ∧
    (computeAlert l p t s).actionCount
      = max 0 ⌈((0.75 : Rat) * (t : Rat) - (p : Rat)) / (0.25 : Rat)⌉ ∧
    (0 ≤ p → p ≤ t →
      IsLeast
        {x : Int | 0 ≤ x ∧
          (3 : Rat) / 4 ≤ ((p : Rat) + (x : Rat)) / ((t : Rat) + (x : Rat))}
        ((computeAlert l p t s).actionCount)) := by
  have hpct : pct p t < 75 := by
    unfold pct
    rw [if_pos ht]
    exact h75
  obtain ⟨hsev, hact⟩ := computeAlert_crit l p t s hpct
  have h43 : 4 * p < 3 * t := pct_lt_iff p t ht h75
  have hval : (computeAlert l p t s).actionCount = 3 * t - 4 * p := by
    rw [hact, ceil_quarter, max_eq_right (by omega)]
  refine ⟨hsev, hact, fun hp hpt => ?_⟩
  rw [hval]
  have hplt : p < t := by omega
  constructor
  · refine ⟨by omega, ?_⟩
    have hne : ((t : Rat) - p) ≠ 0 := by
      have : (p : Rat) < t := by exact_mod_cast hplt
      intro h0
      rw [sub_eq_zero] at h0
      exact absurd (h0 ▸ this) (lt_irrefl _)
    rw [show ((p : Rat) + ((3 * t - 4 * p : Int) : Rat)) = 3 * ((t : Rat) - p)
          by push_cast; ring,
        show ((t : Rat) + ((3 * t - 4 * p : Int) : Rat)) = 4 * ((t : Rat) - p)
          by push_cast; ring,
        mul_div_mul_right _ _ hne]
  · rintro x ⟨hx, hxle⟩
    have htx : (0 : Rat) < (t : Rat) + (x : Rat) := by
      have h1 : (0 : Rat) < (t : Rat) := by exact_mod_cast ht
      have h2 : (0 : Rat) ≤ (x : Rat) := by exact_mod_cast hx
      linarith
    rw [div_le_div_iff₀ (by norm_num) htx] at hxle
    have hq : (3 : Rat) * t - 4 * p ≤ x := by linarith
    have : (3 : Int) * t - 4 * p ≤ x := by exact_mod_cast hq
    omega

/-- Witness for C2: the spec's scenario 2 values, present 5 of total 11,
give a Critical alert requiring 13 consecutive attended lectures. -/
theorem claim_C2_witness :
    (computeAlert "CS101" 5 11 ChangeStatus.Absent).severity = Severity.Critical ∧
    (computeAlert "CS101" 5 11 ChangeStatus.Absent).actionCount = 13 := by
  obtain ⟨h1, h2, -⟩ :=
    claim_C2_critical_action_count "CS101" ChangeStatus.Absent 5 11
      (by norm_num) (by norm_num)
  refine ⟨h1, ?_⟩
  rw [h2, ceil_quarter 5 11]
  decide

/-- C3: at or above the 75 percent threshold (total positive) the alert
is Secure with action count `max(0, floor(present/0.75 - total))`, and
the student can miss that many further lectures (each incrementing only
the total) while keeping attendance at three quarters or more. -/
theorem claim_C3_secure_action_count (l : String) (s : ChangeStatus)
    (p t : Int) (ht : 0 < t) (h75 : (75 : Rat) ≤ (p : Rat) / (t : Rat) * 100) :
    (computeAlert l p t s).severity = Severity.Secure ∧
    (computeAlert l p t s).actionCount
      = max 0 ⌊(p : Rat) / (0.75 : Rat) - (t : Rat)⌋ ∧
    (3 : Rat) / 4
      ≤ (p : Rat) / ((t : Rat) + (((computeAlert l p t s).actionCount : Int) : Rat)) := by
  have hpct : ¬ pct p t < 75 := by
    unfold pct
    rw [if_pos ht]
    exact not_lt.mpr h75
  obtain ⟨hsev, hact⟩ := computeAlert_secure l p t s hpct
  have h34 : 3 * t ≤ 4 * p := pct_ge_iff p t ht h75
  refine ⟨hsev, hact, ?_⟩
  rw [hact, floor_secure]
  by_cases hm : ⌊(4 * (p : Rat)) / 3⌋ - t ≤ 0
  · rw [max_eq_left hm]
    have htq : (0 : Rat) < (t : Rat) := by exact_mod_cast ht
    rw [show ((t : Rat) + (((0 : Int) : Int) : Rat)) = (t : Rat) by norm_num]
    rw [div_le_div_iff₀ (by norm_num) htq]
    have hq : (3 : Rat) * t ≤ 4 * p := by exact_mod_cast h34
    linarith
  · push_neg at hm
    rw [max_eq_right (le_of_lt hm)]
    have hmt : t < ⌊(4 * (p : Rat)) / 3⌋ := by omega
    have hmpos : 0 < ⌊(4 * (p : Rat)) / 3⌋ := by omega
    have heq : (t : Rat) + (((⌊(4 * (p : Rat)) / 3⌋ - t : Int) : Int) : Rat)
        = ((⌊(4 * (p : Rat)) / 3⌋ : Int) : Rat) := by
      push_cast
      ring
    rw [heq]
    have hmq : (0 : Rat) < ((⌊(4 * (p : Rat)) / 3⌋ : Int) : Rat) := by
      exact_mod_cast hmpos
    rw [div_le_div_iff₀ (by norm_num) hmq]
    have hle : ((⌊(4 * (p : Rat)) / 3⌋ : Int) : Rat) ≤ 4 * (p : Rat) / 3 :=
      Int.floor_le _
    rw [le_div_iff₀ (by norm_num : (0 : Rat) < 3)] at hle
    linarith

/-- Witness for C3: the spec's scenario 4 values, present 9 of total 10,
give a Secure alert with 2 skippable lectures, and 9 out of 12 still
meets the three-quarters threshold. -/
theorem claim_C3_witness :
    (computeAlert "CS101" 9 10 ChangeStatus.Present).severity = Severity.Secure ∧
    (computeAlert "CS101" 9 10 ChangeStatus.Present).actionCount = 2 ∧
    (3 : Rat) / 4
      ≤ ((9 : Int) : Rat)
        / (((10 : Int) : Rat)
          + (((computeAlert "CS101" 9 10 ChangeStatus.Present).actionCount : Int) : Rat)) := by
  obtain ⟨h1, h2, h3⟩ :=
    claim_C3_secure_action_count "CS101" ChangeStatus.Present 9 10
      (by norm_num) (by norm_num)
  refine ⟨h1, ?_, h3⟩
  rw [h2, floor_secure 9 10]
  rw [show (4 * ((9 : Int) : Rat)) / 3 = ((12 : Int) : Rat) by norm_num,
     Int.floor_intCast]
  decide

/-- C4: the new snapshot maps exactly the identifiers occurring in the
current course list — an identifier absent from the current fetch (in
particular one only present in the previous snapshot) is absent from the
new snapshot, every identifier of the current fetch is present with the
freshly fetched counters of one of its occurrences, and every emitted
notification is for a course of the current fetch (so no notification is
emitted for a removed course). -/
theorem claim_C4_snapshot_completeness (prev : Snapshot) (courses : List Course) :
    (∀ id : String, id ∉ courses.map Course.id →
      snapLookup (diff prev courses).1 id = none) ∧
    (∀ id : String, id ∈ courses.map Course.id →
      ∃ c ∈ courses, c.id = id ∧
        snapLookup (diff prev courses).1 id = some ⟨c.present, c.total⟩) ∧
    (∀ x ∈ (diff prev courses).2, x.1 ∈ courses) := by
  refine ⟨?_, ?_, ?_⟩
  · intro id hid
    rw [diff, foldl_fst_lookup]
    have hnone : courses.reverse.find? (fun c => c.id == id) = none := by
      rw [List.find?_eq_none]
      intro a ha
      have : a.id ≠ id := fun h => hid (h ▸ List.mem_map_of_mem Course.id
        (List.mem_reverse.mp ha))
      simp [this]
    rw [hnone]
    rfl
  · intro id hid
    rw [diff, foldl_fst_lookup]
    cases hfind : courses.reverse.find? (fun c => c.id == id) with
    | none =>
      exfalso
      obtain ⟨c, hc, hcid⟩ := List.mem_map.mp hid
      have := List.find?_eq_none.mp hfind c (List.mem_reverse.mpr hc)
      simp [hcid] at this
    | some c =>
      refine ⟨c, List.mem_reverse.mp (List.mem_of_find?_eq_some hfind), ?_, rfl⟩
      have := List.find?_some hfind
      exact beq_iff_eq.mp this
  · intro x hx
    rw [diff, foldl_snd] at hx
    simp only [List.nil_append] at hx
    obtain ⟨a, ha, hfa⟩ := List.mem_filterMap.mp hx
    unfold notifyOf at hfa
    by_cases h : classify (oldCounters prev a.id) ⟨a.present, a.total⟩ = ChangeStatus.Unchanged
    · rw [if_pos h] at hfa
      exact absurd hfa (by simp)
    · rw [if_neg h] at hfa
      have hx1 : x.1 = a := by rw [← Option.some_inj.mp hfa]
      exact hx1 ▸ ha

/-- Witness for C4: with a previous snapshot holding only the removed
course OLD and a current fetch of the single course CS101, the new
snapshot drops OLD. -/
theorem claim_C4_witness :
    snapLookup (diff [("OLD", ⟨1, 2⟩)] [⟨"CS101", "Intro", 5, 10⟩]).1 "OLD" = none :=
  (claim_C4_snapshot_completeness [("OLD", ⟨1, 2⟩)] [⟨"CS101", "Intro", 5, 10⟩]).1
    "OLD" (by decide)

/-- C8: the differ is a pure function, so equal inputs give equal
outputs; and the emitted notifications are exactly the courses of the
current fetch whose classification against the previous snapshot is not
Unchanged, in the same relative order as the input course list. -/
theorem claim_C8_deterministic_ordered :
    (∀ (p₁ p₂ : Snapshot) (cs₁ cs₂ : List Course),
      p₁ = p₂ → cs₁ = cs₂ → diff p₁ cs₁ = diff p₂ cs₂) ∧
    (∀ (prev : Snapshot) (courses : List Course),
      ((diff prev courses).2).map Prod.fst
        = courses.filter fun c =>
            decide (classify (oldCounters prev c.id) ⟨c.present, c.total⟩
              ≠ ChangeStatus.Unchanged)) := by
  constructor
  · rintro p₁ p₂ cs₁ cs₂ rfl rfl
    rfl
  · intro prev courses
    rw [diff, foldl_snd]
    simp only [List.nil_append]
    induction courses with
    | nil => rfl
    | cons c rest ih =>
      rw [List.filterMap_cons, List.filter_cons]
      by_cases h : classify (oldCounters prev c.id) ⟨c.present, c.total⟩
          = ChangeStatus.Unchanged
      · have hnone : notifyOf prev c = none := by
          unfold notifyOf
          rw [if_pos h]
        simp [hnone, h, ih]
      · have hsome : notifyOf prev c
            = some (c, classify (oldCounters prev c.id) ⟨c.present, c.total⟩,
                computeAlert c.label c.present c.total
                  (classify (oldCounters prev c.id) ⟨c.present, c.total⟩)) := by
          unfold notifyOf
          rw [if_neg h]
        simp [hsome, h, ih]

/-- Witness for C8: determinism applied at equal concrete inputs. -/
theorem claim_C8_witness :
    diff [("CS101", ⟨5, 10⟩)] [⟨"CS101", "Intro", 5, 11⟩]
      = diff [("CS101", ⟨5, 10⟩)] [⟨"CS101", "Intro", 5, 11⟩] :=
  claim_C8_deterministic_ordered.1 _ _ _ _ rfl rfl

/-- C10: with duplicate identifiers in the current course list, the new
snapshot retains the counters of the last occurrence in list order (the
lookup equals the first match over the reversed list), and the
notification list is the in-order concatenation of the per-occurrence
decisions, each occurrence classified against the previous snapshot
only, each non-Unchanged occurrence producing its own notification. -/
theorem claim_C10_duplicate_courses (prev : Snapshot) (courses : List Course) :
    (∀ id : String,
      snapLookup (diff prev courses).1 id
        = (courses.reverse.find? fun c => c.id == id).map
            fun c => (⟨c.present, c.total⟩ : CourseCounters)) ∧
    (diff prev courses).2 = courses.filterMap (notifyOf prev) := by
  constructor
  · intro id
    rw [diff, foldl_fst_lookup]
    cases hfind : courses.reverse.find? (fun c => c.id == id) <;> simp [snapLookup]
  · rw [diff, foldl_snd]
    simp
